import Mathlib

/-!
Shallow embedding of the agent execution and orchestration layer of the
automaker repository: the provider factory (provider-factory.ts), the option
derivation of the Claude provider's executeQuery (claude-provider.ts), the MCP
connection test service (mcp-test-service.ts), the global JSON edit handlers
of the MCP settings hook (use-mcp-servers.ts), and the auto-mode run loop.
Definitions come first, theorems about the claims follow.
-/

namespace Automaker

/-- JavaScript truthiness of an optional string value: `undefined` and the
empty string are falsy, every other string is truthy. -/
def jsTruthy : Option String → Bool
  | none => false
  | some s => s != ""

/-- JavaScript `a || d` on an optional string: the default wins exactly when
the value is absent or falsy (empty). -/
def jsOrDefault (o : Option String) (d : String) : String :=
  match o with
  | some s => if s = "" then d else s
  | none => d

/-- ASCII case folding of one character, the fragment of JavaScript
`toLowerCase` relevant to routing (all routing tokens are ASCII). -/
def asciiLowerChar (c : Char) : Char :=
  if 'A' ≤ c ∧ c ≤ 'Z' then Char.ofNat (c.toNat + 32) else c

/-- String case folding by mapping `asciiLowerChar` over the characters. -/
def toLowerStr (s : String) : String :=
  String.mk (s.data.map asciiLowerChar)

/-- `s.startsWith p` on the character lists of the two strings. -/
def strStartsWith (s p : String) : Bool :=
  p.data.isPrefixOf s.data

/-! ### Provider factory (provider-factory.ts) -/

/-- The provider families of the repository; today exactly one concrete
family exists. -/
inductive ProviderKind
  | claude
deriving DecidableEq, Repr

/-- The diagnostic warning emitted when no routing rule matches
(provider-factory.ts line 36). -/
def unknownModelWarning (modelId : String) : String :=
  "[ProviderFactory] Unknown model prefix for \"" ++ modelId ++ "\", defaulting to Claude"

/-- Whether the case-folded identifier matches a Claude routing rule: prefix
"claude-" or one of the bare aliases haiku, sonnet, opus
(provider-factory.ts line 24). -/
def isClaudeModelId (modelId : String) : Bool :=
  let lowerModel := toLowerStr modelId
  strStartsWith lowerModel "claude-" || ["haiku", "sonnet", "opus"].contains lowerModel

/-- Outcome of `ProviderFactory.getProviderForModel`: the chosen provider and
the console warnings emitted during the call. -/
structure RouteResult where
  provider : ProviderKind
  warnings : List String
deriving DecidableEq, Repr

/-- `ProviderFactory.getProviderForModel` (provider-factory.ts 20-39): route a
model identifier to a provider; unmatched identifiers fall back to the Claude
provider and emit one console warning naming the identifier. -/
def getProviderForModel (modelId : String) : RouteResult :=
  if isClaudeModelId modelId then
    { provider := ProviderKind.claude, warnings := [] }
  else
    { provider := ProviderKind.claude, warnings := [unknownModelWarning modelId] }

/-- A provider object as returned by `new ClaudeProvider()`: `ref` is the
identity of the allocated object. The JavaScript heap is modelled by a
counter; each `new` takes the counter as its reference and bumps it, so
distinct allocations have distinct references. -/
structure ProviderInstance where
  ref : Nat
  kind : ProviderKind
deriving DecidableEq, Repr

/-- Allocation of `new ClaudeProvider()` against the heap counter. -/
def newClaudeProvider (heap : Nat) : ProviderInstance × Nat :=
  ({ ref := heap, kind := ProviderKind.claude }, heap + 1)

/-- `ProviderFactory.getProviderByName` (provider-factory.ts 75-92): switch on
the lower-cased name; "claude" and "anthropic" allocate a fresh
ClaudeProvider, every other name returns null (modelled as `none`). -/
def getProviderByName (name : String) (heap : Nat) : Option ProviderInstance × Nat :=
  let lowerName := toLowerStr name
  if lowerName = "claude" ∨ lowerName = "anthropic" then
    let (p, heap') := newClaudeProvider heap
    (some p, heap')
  else
    (none, heap)

/-! ### Claude provider option derivation (claude-provider.ts) -/

/-- Opaque payload of one MCP server entry as carried inside the
`mcpServers` record of ExecuteOptions; executeQuery only counts the keys and
passes the record through. -/
structure McpServerDef where
  payload : String
deriving DecidableEq, Repr

/-- Sandbox directive object; a JavaScript object is always truthy, so
presence alone decides the spread in the source. -/
structure SandboxConfig where
  enabled : Bool
deriving DecidableEq, Repr

/-- The prompt of ExecuteOptions: a plain string or a structured multi-part
payload. -/
inductive Prompt
  | text (s : String)
  | multiPart (blocks : List String)
deriving DecidableEq, Repr

/-- `ExecuteOptions` (types.ts / claude-provider.ts destructuring): `none`
models an absent (undefined) optional field. -/
structure ExecuteOptions where
  prompt : Prompt
  model : String
  cwd : String
  systemPrompt : Option String := none
  maxTurns : Option Nat := none
  allowedTools : Option (List String) := none
  conversationHistory : Option (List String) := none
  sdkSessionId : Option String := none
  mcpServers : Option (List (String × McpServerDef)) := none
  mcpAutoApproveTools : Option Bool := none
  mcpUnrestrictedTools : Option Bool := none
  settingSources : Option (List String) := none
  sandbox : Option SandboxConfig := none
deriving DecidableEq, Repr

/-- The built-in default allowed-tool set (claude-provider.ts line 48). -/
def defaultTools : List String :=
  ["Read", "Write", "Edit", "Glob", "Grep", "Bash", "WebSearch", "WebFetch"]

/-- `hasMcpServers` = the MCP server record is present and has at least one
key (claude-provider.ts line 42). -/
def hasMcpServers (o : ExecuteOptions) : Bool :=
  match o.mcpServers with
  | none => false
  | some m => decide (0 < m.length)

/-- `mcpAutoApproveTools ?? true` (claude-provider.ts line 45). -/
def mcpAutoApproveEff (o : ExecuteOptions) : Bool :=
  o.mcpAutoApproveTools.getD true

/-- `mcpUnrestrictedTools ?? true` (claude-provider.ts line 46). -/
def mcpUnrestrictedEff (o : ExecuteOptions) : Bool :=
  o.mcpUnrestrictedTools.getD true

/-- `shouldBypassPermissions = hasMcpServers && mcpAutoApprove`
(claude-provider.ts line 51). -/
def shouldBypassPermissions (o : ExecuteOptions) : Bool :=
  hasMcpServers o && mcpAutoApproveEff o

/-- `shouldRestrictTools = !hasMcpServers || !mcpUnrestricted`
(claude-provider.ts line 53). -/
def shouldRestrictTools (o : ExecuteOptions) : Bool :=
  !hasMcpServers o || !mcpUnrestrictedEff o

/-- The options object handed to the underlying SDK session; `none` models an
omitted key. -/
structure SdkOptions where
  model : String
  systemPrompt : Option String
  maxTurns : Nat
  cwd : String
  allowedTools : Option (List String)
  permissionMode : String
  allowDangerouslySkipPermissions : Option Bool
  resume : Option String
  settingSources : Option (List String)
  sandbox : Option SandboxConfig
  mcpServers : Option (List (String × McpServerDef))
deriving DecidableEq, Repr

/-- The `sdkOptions` construction inside `ClaudeProvider.executeQuery`
(claude-provider.ts 42-78). Conditional spreads become conditional `some`s;
the resume spread requires a truthy session id (a non-empty string) together
with a present, non-empty conversation history. -/
def buildSdkOptions (o : ExecuteOptions) : SdkOptions :=
  { model := o.model
    systemPrompt := o.systemPrompt
    maxTurns := o.maxTurns.getD 20
    cwd := o.cwd
    allowedTools :=
      match o.allowedTools with
      | some ts => if shouldRestrictTools o then some ts else none
      | none => if shouldRestrictTools o then some defaultTools else none
    permissionMode := if shouldBypassPermissions o then "bypassPermissions" else "default"
    allowDangerouslySkipPermissions :=
      if shouldBypassPermissions o then some true else none
    resume :=
      match o.sdkSessionId, o.conversationHistory with
      | some sid, some h => if sid != "" && decide (0 < h.length) then some sid else none
      | _, _ => none
    settingSources := o.settingSources
    sandbox := o.sandbox
    mcpServers := o.mcpServers }

/-! ### MCP server configuration (shared by the tester and the JSON editor) -/

/-- `MCPServerConfig`: transport type and transport-specific fields are
optional at runtime (the tester and the editor both guard on their
presence). -/
structure MCPServerConfig where
  id : String
  name : String
  description : Option String := none
  type : Option String := none
  enabled : Option Bool := none
  command : Option String := none
  args : Option (List String) := none
  env : Option (List (String × String)) := none
  url : Option String := none
  headers : Option (List (String × String)) := none
deriving DecidableEq, Repr

/-! ### MCP connection tester (mcp-test-service.ts) -/

/-- A constructed client transport, carrying the fields the source passes to
the respective transport constructor. -/
inductive Transport
  | stdio (command : String) (args : Option (List String))
      (env : Option (List (String × String)))
  | sse (url : String) (headersApplied : Option (List (String × String)))
  | http (url : String) (headersApplied : Option (List (String × String)))
deriving DecidableEq, Repr

/-- The fixed timeout budget in milliseconds (mcp-test-service.ts line 15). -/
def DEFAULT_TIMEOUT : Nat := 10000

/-- `createTransport` (mcp-test-service.ts 139-188): select the transport by
`config.type`; sse and http require a truthy url, every other type falls
through to stdio and requires a truthy command. A missing required field
throws before any connection object is used. -/
def createTransport (config : MCPServerConfig) : Except String Transport :=
  if config.type = some "sse" then
    if jsTruthy config.url = false then
      Except.error "URL is required for SSE transport"
    else
      Except.ok (Transport.sse (config.url.getD "") config.headers)
  else if config.type = some "http" then
    if jsTruthy config.url = false then
      Except.error "URL is required for HTTP transport"
    else
      Except.ok (Transport.http (config.url.getD "") config.headers)
  else
    if jsTruthy config.command = false then
      Except.error "Command is required for stdio transport"
    else
      Except.ok (Transport.stdio (config.command.getD "") config.args config.env)

/-- A remote tool descriptor as returned by listTools. -/
structure ToolDescr where
  name : String
  description : Option String := none
  inputSchema : Option String := none
deriving DecidableEq, Repr

/-- `MCPToolInfo`: the normalized tool descriptor. -/
structure MCPToolInfo where
  name : String
  description : Option String
  inputSchema : Option String
  enabled : Bool
deriving DecidableEq, Repr

/-- Server name/version block of a successful test result. -/
structure ServerInfo where
  name : Option String
  version : Option String
deriving DecidableEq, Repr

/-- `MCPTestResult` (mcp-test-service.ts 17-26). -/
structure MCPTestResult where
  success : Bool
  tools : Option (List MCPToolInfo) := none
  error : Option String := none
  connectionTime : Option Nat := none
  serverInfo : Option ServerInfo := none
deriving DecidableEq, Repr

deriving instance DecidableEq for Except

/-- Behaviour of the remote server: for each phase, the settle time in
milliseconds and the outcome; `none` means the phase never settles. Logical
time advances only at the two raced awaits. -/
structure TransportEnv where
  connect : Option (Nat × Except String Unit)
  listTools : Option (Nat × Except String (List ToolDescr))
deriving DecidableEq, Repr

/-- Transport-level activity performed by one testServer call. -/
inductive TransportEffect
  | connectAttempt
  | listToolsCall
deriving DecidableEq, Repr

/-- `Promise.race` of one phase against `timeout ms message`
(mcp-test-service.ts 54-70 together with 193-197): the earlier settler wins;
a phase that never settles, or settles no earlier than the timer, loses to
the timer. Returns the elapsed milliseconds and the outcome. -/
def racePhase {α : Type} (behaviour : Option (Nat × Except String α)) (ms : Nat)
    (message : String) : Nat × Except String α :=
  match behaviour with
  | none => (ms, Except.error message)
  | some (t, r) => if t < ms then (t, r) else (ms, Except.error message)

/-- `testServer` (mcp-test-service.ts 41-110): build the transport, race
connect and listTools each against the fixed timeout, normalize the tools on
success, and on any thrown error return a failure result carrying the error
message and the elapsed time. The second component records the
transport-level activity; a validation throw inside createTransport happens
before any connect call, so its trace is empty. Teardown in the finally block
swallows its own errors and never changes the result. -/
def testServer (env : TransportEnv) (config : MCPServerConfig) :
    MCPTestResult × List TransportEffect :=
  match createTransport config with
  | Except.error e =>
      ({ success := false, error := some e, connectionTime := some 0 }, [])
  | Except.ok _transport =>
      match racePhase env.connect DEFAULT_TIMEOUT "Connection timeout" with
      | (t1, Except.error e) =>
          ({ success := false, error := some e, connectionTime := some t1 },
            [TransportEffect.connectAttempt])
      | (t1, Except.ok _) =>
          match racePhase env.listTools DEFAULT_TIMEOUT "List tools timeout" with
          | (t2, Except.error e) =>
              ({ success := false, error := some e, connectionTime := some (t1 + t2) },
                [TransportEffect.connectAttempt, TransportEffect.listToolsCall])
          | (t2, Except.ok raw) =>
              ({ success := true
                 tools := some (raw.map fun tool =>
                   { name := tool.name
                     description := tool.description
                     inputSchema := tool.inputSchema
                     enabled := true })
                 connectionTime := some (t1 + t2)
                 serverInfo := some { name := some config.name, version := none } },
                [TransportEffect.connectAttempt, TransportEffect.listToolsCall])

/-! ### Global JSON editor of the MCP settings hook (use-mcp-servers.ts) -/

/-- A JSON leaf value as written by the export handler. -/
inductive JVal
  | s (v : String)
  | b (v : Bool)
  | strArr (v : List String)
  | strMap (v : List (String × String))
deriving DecidableEq, Repr

/-- Assignment `obj[k] = v` on a JavaScript object modelled as a keyed list:
an existing key keeps its position and gets the new value, a new key is
appended. -/
def jsObjUpsert {α : Type} (m : List (String × α)) (k : String) (v : α) :
    List (String × α) :=
  if m.any (fun kv => kv.1 = k) then
    m.map (fun kv => if kv.1 = k then (k, v) else kv)
  else
    m ++ [(k, v)]

/-- The JSON object written for one server by `handleOpenGlobalJsonEdit`
(use-mcp-servers.ts 571-604), fields in source order. The server's `id` is
never among the written keys. An assignment of an undefined value leaves no
key in the serialized JSON, matching JSON.stringify. -/
def exportServerFields (s : MCPServerConfig) : List (String × JVal) :=
  [("type", JVal.s (jsOrDefault s.type "stdio"))]
  ++ (if jsTruthy s.description then [("description", JVal.s (s.description.getD ""))] else [])
  ++ (if s.enabled = some false then [("enabled", JVal.b false)] else [])
  ++ (if s.type = some "stdio" ∨ jsTruthy s.type = false then
        (match s.command with
          | some c => [("command", JVal.s c)]
          | none => [])
        ++ (match s.args with
          | some l => if 0 < l.length then [("args", JVal.strArr l)] else []
          | none => [])
        ++ (match s.env with
          | some e => if 0 < e.length then [("env", JVal.strMap e)] else []
          | none => [])
      else
        (match s.url with
          | some u => [("url", JVal.s u)]
          | none => [])
        ++ (match s.headers with
          | some hd => if 0 < hd.length then [("headers", JVal.strMap hd)] else []
          | none => []))

/-- `handleOpenGlobalJsonEdit` (use-mcp-servers.ts 571-604): the exported
`mcpServers` JSON value is an object keyed by server NAME whose values are
the per-server field objects; ids are not exported. -/
def handleOpenGlobalJsonEdit (servers : List MCPServerConfig) :
    List (String × List (String × JVal)) :=
  servers.foldl (fun acc s => jsObjUpsert acc s.name (exportServerFields s)) []

/-- Shape of the value `parsed.mcpServers || parsed` seen by the save
handler: a plain object keyed by name, a JSON array, or a scalar. -/
inductive ServersJson
  | objForm (entries : List (String × List (String × JVal)))
  | arrForm (entries : List (List (String × JVal)))
  | scalar (v : JVal)
deriving DecidableEq, Repr

/-- The top-level format gate of `handleSaveGlobalJsonEdit`
(use-mcp-servers.ts 608-616): any servers value that is not a plain object —
in particular the array form — is rejected with the invalid-format message;
`none` means the gate passes. -/
def saveGlobalJsonFormatError (servers : ServersJson) : Option String :=
  match servers with
  | ServersJson.objForm _ => none
  | ServersJson.arrForm _ => some "Invalid format: expected object with server configurations"
  | ServersJson.scalar _ => some "Invalid format: expected object with server configurations"

/-- The concrete configuration set used to evaluate the export handler: one
stdio server that carries an id. -/
def c2Config : MCPServerConfig :=
  { id := "server-1"
    name := "github"
    type := some "stdio"
    enabled := some true
    command := some "npx"
    args := some ["-y", "@modelcontextprotocol/server-github"] }

/-! ### Auto-mode run loop -/

/-- Modelled from the spec: the run-loop phases of the Auto-Mode Service
(auto-mode-service.ts is not among the provided sources; only its unit test
is). Spec section 4.4: Idle to Running, Running to Idle or Failed, Running to
Stopping to Idle on explicit stop. -/
inductive LoopPhase
  | idle
  | running
  | stopping
  | failed
deriving DecidableEq, Repr

/-- Modelled from the spec: `AutoLoopState` of section 3 — one loop per
service instance, with its phase, current iteration count, project path and
target feature count (`none` target means unlimited). Holding a single loop
state per service instance realizes the at-most-one-active-loop invariant. -/
structure AutoLoopState where
  phase : LoopPhase
  iteration : Nat
  projectPath : Option String := none
  targetCount : Option Nat := none
deriving DecidableEq, Repr

/-- Outcome of one startAutoLoop call: the call result, the service state
after the call, and the events emitted on the event bus during the call. -/
structure StartOutcome where
  result : Except String Unit
  state : AutoLoopState
  events : List String
deriving DecidableEq, Repr

/-- Modelled from the spec: `startAutoLoop(projectPath, targetCount)`
(section 4.4) — if the current phase is Running the call fails immediately
with an "already running" condition and performs no side effect (state
unchanged, nothing emitted); otherwise it transitions to Running with a fresh
iteration count and emits the loop-started event. The unit test expects the
rejection message to contain "already running" and the started event message
to contain "Auto mode started". -/
def startAutoLoop (s : AutoLoopState) (projectPath : String) (targetCount : Option Nat) :
    StartOutcome :=
  if s.phase = LoopPhase.running then
    { result := Except.error "Auto mode is already running", state := s, events := [] }
  else
    let s' : AutoLoopState :=
      { phase := LoopPhase.running
        iteration := 0
        projectPath := some projectPath
        targetCount := targetCount }
    { result := Except.ok (), state := s', events := ["Auto mode started"] }

/-- A stdio configuration with an unrecognized transport type, used to
evaluate the stdio fallback of createTransport. -/
def c10Config : MCPServerConfig :=
  { id := "w", name := "ws", type := some "websocket", command := some "npx" }

/-- An SSE configuration missing its url, used to evaluate the validation
failure path of testServer. -/
def c7Config : MCPServerConfig :=
  { id := "s1", name := "events", type := some "sse" }

/-- A well-formed stdio configuration, used to evaluate the timeout path of
testServer. -/
def c8Config : MCPServerConfig :=
  { id := "s2", name := "slow", command := some "echo" }

/-- Options with one configured MCP server and every relaxation flag left at
its default. -/
def c1Options : ExecuteOptions :=
  { prompt := Prompt.text "hi"
    model := "claude-sonnet-4-20250514"
    cwd := "/proj"
    mcpServers := some [("srv", { payload := "cfg" })] }

/-- Options with no MCP servers and no explicit allow-list. -/
def c4Options : ExecuteOptions :=
  { prompt := Prompt.text "hi"
    model := "claude-sonnet-4-20250514"
    cwd := "/proj" }

/-- Options carrying a prior session identifier and a non-empty conversation
history. -/
def c9Options : ExecuteOptions :=
  { prompt := Prompt.text "hi"
    model := "claude-sonnet-4-20250514"
    cwd := "/proj"
    sdkSessionId := some "sess-1"
    conversationHistory := some ["m1"] }

/-! ## Theorems -/

/-- C1: for every ExecuteOptions, the permission mode given to the underlying
session is "bypassPermissions" exactly when the MCP server map is non-empty
and the auto-approve flag (defaulting to true when unspecified) is true; in
every other case it is "default"; and the dangerous-skip flag accompanies the
mode exactly when bypass is selected. -/
theorem permissionMode_bypass_iff (o : ExecuteOptions) :
    ((buildSdkOptions o).permissionMode = "bypassPermissions"
      ↔ ((∃ m, o.mcpServers = some m ∧ m ≠ []) ∧ o.mcpAutoApproveTools.getD true = true))
    ∧ ((buildSdkOptions o).permissionMode = "bypassPermissions"
      ∨ (buildSdkOptions o).permissionMode = "default")
    ∧ ((buildSdkOptions o).permissionMode = "bypassPermissions"
      ↔ (buildSdkOptions o).allowDangerouslySkipPermissions = some true) := by
  have hchar : shouldBypassPermissions o = true
      ↔ ((∃ m, o.mcpServers = some m ∧ m ≠ []) ∧ o.mcpAutoApproveTools.getD true = true) := by
    unfold shouldBypassPermissions hasMcpServers mcpAutoApproveEff
    cases hm : o.mcpServers with
    | none => simp [hm]
    | some m =>
      cases m with
      | nil => simp [hm]
      | cons a l => simp [hm]
  cases hb : shouldBypassPermissions o with
  | false =>
    have h1 : (buildSdkOptions o).permissionMode = "default" := by
      simp [buildSdkOptions, hb]
    have h2 : (buildSdkOptions o).allowDangerouslySkipPermissions = none := by
      simp [buildSdkOptions, hb]
    refine ⟨?_, Or.inr h1, ?_⟩
    · rw [h1, ← hchar, hb]
      constructor
      · intro h; exact absurd h (by decide)
      · intro h; exact absurd h (by decide)
    · rw [h1, h2]
      constructor
      · intro h; exact absurd h (by decide)
      · intro h; exact absurd h (by simp)
  | true =>
    have h1 : (buildSdkOptions o).permissionMode = "bypassPermissions" := by
      simp [buildSdkOptions, hb]
    have h2 : (buildSdkOptions o).allowDangerouslySkipPermissions = some true := by
      simp [buildSdkOptions, hb]
    refine ⟨?_, Or.inl h1, ?_⟩
    · rw [h1, ← hchar, hb]
      simp
    · rw [h1, h2]
      simp

/-- C1 witness: with one MCP server and default flags the mode is bypass and
the dangerous-skip flag accompanies it. -/
theorem permissionMode_bypass_iff_witness :
    (buildSdkOptions c1Options).permissionMode = "bypassPermissions"
    ∧ (buildSdkOptions c1Options).allowDangerouslySkipPermissions = some true := by
  have h := permissionMode_bypass_iff c1Options
  have hb := h.1.mpr ⟨⟨[("srv", { payload := "cfg" })], rfl, by decide⟩, rfl⟩
  exact ⟨hb, h.2.2.mp hb⟩

/-- C2: evaluation of the global JSON editor at a one-server configuration
set carrying an id. The export handler produces a keyed-by-name object whose
entry holds only type, command and args — the id is not among any exported
key — and the save handler rejects the array-with-id form (the format that
CUSTOM_CHANGES.md documents as the fixed export format and the spec's
round-trip property requires) with the invalid-format message. -/
theorem global_json_export_drops_id_and_rejects_array_form :
    handleOpenGlobalJsonEdit [c2Config]
      = [("github",
          [("type", JVal.s "stdio"),
           ("command", JVal.s "npx"),
           ("args", JVal.strArr ["-y", "@modelcontextprotocol/server-github"])])]
    ∧ "id" ∉ ((handleOpenGlobalJsonEdit [c2Config]).foldl
        (fun acc kv => acc ++ kv.2.map Prod.fst) [])
    ∧ saveGlobalJsonFormatError
        (ServersJson.arrForm
          [[("id", JVal.s "server-1"), ("name", JVal.s "github"),
            ("type", JVal.s "stdio"), ("command", JVal.s "npx"),
            ("args", JVal.strArr ["-y", "@modelcontextprotocol/server-github"])]])
      = some "Invalid format: expected object with server configurations" := by
  refine ⟨by decide, by decide, by decide⟩

/-- C3: calling startAutoLoop while the loop phase is Running always fails
with a message containing "already running", emits no event, and leaves the
service state — in particular the iteration count — unchanged. The service
holds a single loop state, so at most one loop is ever Running. -/
theorem startAutoLoop_rejected_while_running (s : AutoLoopState) (p : String)
    (t : Option Nat) (hrun : s.phase = LoopPhase.running) :
    (∃ msg, (startAutoLoop s p t).result = Except.error msg
        ∧ ∃ pre post, msg = pre ++ "already running" ++ post)
    ∧ (startAutoLoop s p t).state = s
    ∧ (startAutoLoop s p t).state.iteration = s.iteration
    ∧ (startAutoLoop s p t).events = [] := by
  refine ⟨⟨"Auto mode is already running", ?_, "Auto mode is ", "", by decide⟩, ?_, ?_, ?_⟩ <;>
    simp [startAutoLoop, hrun]

/-- C3 witness: the rejection at a concrete running state. -/
theorem startAutoLoop_rejected_while_running_witness :
    (∃ msg,
        (startAutoLoop
            { phase := LoopPhase.running, iteration := 5,
              projectPath := some "/test/project", targetCount := some 3 }
            "/test/project" (some 3)).result = Except.error msg
        ∧ ∃ pre post, msg = pre ++ "already running" ++ post)
    ∧ (startAutoLoop
          { phase := LoopPhase.running, iteration := 5,
            projectPath := some "/test/project", targetCount := some 3 }
          "/test/project" (some 3)).state
        = { phase := LoopPhase.running, iteration := 5,
            projectPath := some "/test/project", targetCount := some 3 }
    ∧ (startAutoLoop
          { phase := LoopPhase.running, iteration := 5,
            projectPath := some "/test/project", targetCount := some 3 }
          "/test/project" (some 3)).state.iteration = 5
    ∧ (startAutoLoop
          { phase := LoopPhase.running, iteration := 5,
            projectPath := some "/test/project", targetCount := some 3 }
          "/test/project" (some 3)).events = [] :=
  startAutoLoop_rejected_while_running _ _ _ rfl

/-- C4: the effective allowed-tool list is the caller's explicit list when
one is supplied and tools are restricted (MCP server map empty or
mcpUnrestricted false), the built-in default set when none is supplied and
tools are restricted, and omitted entirely otherwise. -/
theorem allowedTools_derivation (o : ExecuteOptions) :
    (buildSdkOptions o).allowedTools =
      if hasMcpServers o = false ∨ mcpUnrestrictedEff o = false
      then some (o.allowedTools.getD defaultTools)
      else none := by
  have hiff : shouldRestrictTools o = true
      ↔ (hasMcpServers o = false ∨ mcpUnrestrictedEff o = false) := by
    unfold shouldRestrictTools
    cases hasMcpServers o <;> cases mcpUnrestrictedEff o <;> simp
  cases hr : shouldRestrictTools o with
  | true =>
    rw [if_pos (hiff.mp hr)]
    cases ha : o.allowedTools <;> simp [buildSdkOptions, hr, ha]
  | false =>
    rw [if_neg (by rw [← hiff, hr]; decide)]
    cases ha : o.allowedTools <;> simp [buildSdkOptions, hr, ha]

/-- C4 witness: with no MCP servers and no explicit list the default tool set
is used. -/
theorem allowedTools_derivation_witness :
    (buildSdkOptions c4Options).allowedTools = some defaultTools := by
  rw [allowedTools_derivation c4Options]
  decide

/-- C5: routing by model identifier never fails: identifiers whose
case-folded form starts with "claude-" or equals one of the aliases haiku,
sonnet, opus return the Claude provider with no warning; every other
identifier (including the empty string) returns the default Claude provider
and emits exactly one diagnostic warning mentioning the identifier. -/
theorem getProviderForModel_total_with_fallback_warning (modelId : String) :
    (getProviderForModel modelId).provider = ProviderKind.claude
    ∧ (if isClaudeModelId modelId = true
        then (getProviderForModel modelId).warnings = []
        else ((getProviderForModel modelId).warnings.length = 1
          ∧ ∃ pre post, (getProviderForModel modelId).warnings = [pre ++ modelId ++ post])) := by
  cases h : isClaudeModelId modelId with
  | true =>
    simp [getProviderForModel, h]
  | false =>
    simp [getProviderForModel, h, unknownModelWarning]
    exact ⟨"[ProviderFactory] Unknown model prefix for \"", "\", defaulting to Claude", rfl⟩

/-- C5 witness: the unrecognized identifier "gpt-5.2" falls back to the
Claude provider with exactly one warning. -/
theorem getProviderForModel_total_with_fallback_warning_witness :
    (getProviderForModel "gpt-5.2").provider = ProviderKind.claude
    ∧ (getProviderForModel "gpt-5.2").warnings.length = 1 := by
  have h := getProviderForModel_total_with_fallback_warning "gpt-5.2"
  rw [if_neg (by decide)] at h
  exact ⟨h.1, h.2.1⟩

/-- C6: routing by provider name matches "claude" and "anthropic"
case-insensitively, yields the Claude provider, returns the not-found
sentinel for every other name without throwing, and allocates a fresh
provider object on each call, so two successive calls with equal input never
return the same reference. -/
theorem getProviderByName_props (name : String) (heap : Nat) :
    ((getProviderByName name heap).1.isSome = true
        ↔ (toLowerStr name = "claude" ∨ toLowerStr name = "anthropic"))
    ∧ (∀ p : ProviderInstance, (getProviderByName name heap).1 = some p
        → p.kind = ProviderKind.claude)
    ∧ (∀ p₁ p₂ : ProviderInstance,
        (getProviderByName name heap).1 = some p₁ →
        (getProviderByName name ((getProviderByName name heap).2)).1 = some p₂ →
        p₁ ≠ p₂) := by
  by_cases h : toLowerStr name = "claude" ∨ toLowerStr name = "anthropic"
  · refine ⟨by simp [getProviderByName, newClaudeProvider, h], ?_, ?_⟩
    · intro p hp
      simp [getProviderByName, newClaudeProvider, h] at hp
      rw [← hp]
    · intro p₁ p₂ h1 h2
      simp [getProviderByName, newClaudeProvider, h] at h1 h2
      rw [← h1, ← h2]
      intro hEq
      have : heap = heap + 1 := congrArg ProviderInstance.ref hEq
      omega
  · refine ⟨by simp [getProviderByName, h], ?_, ?_⟩
    · intro p hp
      simp [getProviderByName, h] at hp
    · intro p₁ p₂ h1 _
      simp [getProviderByName, h] at h1

/-- C6 witness: two calls with the equal mixed-case name "Claude" on the
initial heap return distinct references. -/
theorem getProviderByName_props_witness :
    ({ ref := 0, kind := ProviderKind.claude } : ProviderInstance)
      ≠ { ref := 1, kind := ProviderKind.claude } :=
  (getProviderByName_props "Claude" 0).2.2
    { ref := 0, kind := ProviderKind.claude }
    { ref := 1, kind := ProviderKind.claude }
    (by decide) (by decide)

/-- C7: a configuration missing the required field of its transport type (no
url for sse or http, no command for stdio) makes testServer fail validation
before any connection is attempted: the transport-activity trace is empty and
the result is a structured failure with a message. -/
theorem testServer_missing_field_no_connection (env : TransportEnv)
    (config : MCPServerConfig)
    (hmiss : (config.type = some "sse" ∧ config.url = none)
      ∨ (config.type = some "http" ∧ config.url = none)
      ∨ (config.type ≠ some "sse" ∧ config.type ≠ some "http" ∧ config.command = none)) :
    (testServer env config).2 = []
    ∧ (testServer env config).1.success = false
    ∧ ∃ msg, (testServer env config).1.error = some msg := by
  have hct : ∃ e, createTransport config = Except.error e := by
    rcases hmiss with ⟨h1, h2⟩ | ⟨h1, h2⟩ | ⟨h1, h2, h3⟩
    · exact ⟨"URL is required for SSE transport",
        by simp [createTransport, h1, h2, jsTruthy]⟩
    · exact ⟨"URL is required for HTTP transport",
        by simp [createTransport, h1, h2, jsTruthy]⟩
    · exact ⟨"Command is required for stdio transport",
        by simp [createTransport, h1, h2, h3, jsTruthy]⟩
  rcases hct with ⟨e, he⟩
  refine ⟨?_, ?_, e, ?_⟩ <;> simp [testServer, he]

/-- C7 witness: an SSE configuration without a url fails validation with an
empty transport-activity trace, for a server environment that would otherwise
answer. -/
theorem testServer_missing_field_no_connection_witness :
    (testServer { connect := some (5, Except.ok ()), listTools := none } c7Config).2 = []
    ∧ (testServer { connect := some (5, Except.ok ()), listTools := none } c7Config).1.success
        = false
    ∧ ∃ msg,
        (testServer { connect := some (5, Except.ok ()), listTools := none } c7Config).1.error
          = some msg :=
  testServer_missing_field_no_connection _ c7Config (Or.inl ⟨rfl, rfl⟩)

/-- C8: for a well-formed configuration, a connect phase that never settles
loses the race against the fixed 10000 ms timer: the result is a failure
carrying the timeout message and a connection time equal to the budget
(within the 500 ms slack); and the list-tools phase races against the same
budget, a never-settling listTools call producing the list-tools timeout
failure after the connect time plus the budget. -/
theorem testServer_timeout_budget (env : TransportEnv) (config : MCPServerConfig)
    (htr : ∃ tr, createTransport config = Except.ok tr)
    (hnever : env.connect = none) :
    ((testServer env config).1.success = false
      ∧ (testServer env config).1.error = some "Connection timeout"
      ∧ (testServer env config).1.connectionTime = some DEFAULT_TIMEOUT
      ∧ DEFAULT_TIMEOUT ≤ DEFAULT_TIMEOUT + 500)
    ∧ (∀ env' : TransportEnv, ∀ tc : Nat, tc < DEFAULT_TIMEOUT →
        env'.connect = some (tc, Except.ok ()) → env'.listTools = none →
        (testServer env' config).1.success = false
        ∧ (testServer env' config).1.error = some "List tools timeout"
        ∧ (testServer env' config).1.connectionTime = some (tc + DEFAULT_TIMEOUT)) := by
  rcases htr with ⟨tr, htr⟩
  constructor
  · refine ⟨?_, ?_, ?_, by omega⟩ <;> simp [testServer, htr, hnever, racePhase]
  · intro env' tc htc hc hl
    refine ⟨?_, ?_, ?_⟩ <;> simp [testServer, htr, racePhase, hc, hl, htc]

/-- C8 witness: the stdio configuration against a server that never answers
the connect call, and against one that connects after 25 ms but never answers
listTools. -/
theorem testServer_timeout_budget_witness :
    ((testServer { connect := none, listTools := none } c8Config).1.error
        = some "Connection timeout"
      ∧ (testServer { connect := none, listTools := none } c8Config).1.connectionTime
        = some DEFAULT_TIMEOUT)
    ∧ (testServer { connect := some (25, Except.ok ()), listTools := none } c8Config).1.error
        = some "List tools timeout" := by
  have h := testServer_timeout_budget { connect := none, listTools := none } c8Config
    ⟨Transport.stdio "echo" none none, by decide⟩ rfl
  exact ⟨⟨h.1.2.1, h.1.2.2.1⟩,
    (h.2 { connect := some (25, Except.ok ()), listTools := none } 25 (by decide) rfl rfl).2.1⟩

/-- C9: the options given to the underlying session carry a resume identifier
exactly when a session identifier is present (a non-empty string was
supplied; JavaScript truthiness) and the supplied conversation history is
non-empty, in which case the resume identifier is the prior session
identifier; otherwise no resume key is set and a fresh session starts. -/
theorem resume_condition (o : ExecuteOptions) :
    (buildSdkOptions o).resume =
      if jsTruthy o.sdkSessionId = true ∧ o.conversationHistory.getD [] ≠ []
      then o.sdkSessionId
      else none := by
  cases hs : o.sdkSessionId with
  | none => simp [buildSdkOptions, hs, jsTruthy]
  | some sid =>
    cases hh : o.conversationHistory with
    | none => simp [buildSdkOptions, hs, hh, jsTruthy]
    | some h =>
      by_cases hsid : sid = ""
      · subst hsid
        simp [buildSdkOptions, hs, hh, jsTruthy]
      · cases h with
        | nil => simp [buildSdkOptions, hs, hh, jsTruthy, hsid]
        | cons a l => simp [buildSdkOptions, hs, hh, jsTruthy, hsid]

/-- C9 witness: a non-empty session identifier together with a non-empty
history resumes that session. -/
theorem resume_condition_witness :
    (buildSdkOptions c9Options).resume = some "sess-1" := by
  rw [resume_condition c9Options]
  decide

/-- C10: a configuration whose type is neither "sse" nor "http" — including
an absent or unrecognized type — is treated as stdio: createTransport
requires the command field, failing validation without it, and otherwise
builds a stdio transport from command, args and env. -/
theorem createTransport_defaults_to_stdio (config : MCPServerConfig)
    (hsse : config.type ≠ some "sse") (hhttp : config.type ≠ some "http") :
    createTransport config =
      if jsTruthy config.command = true
      then Except.ok (Transport.stdio (config.command.getD "") config.args config.env)
      else Except.error "Command is required for stdio transport" := by
  cases hc : jsTruthy config.command <;> simp [createTransport, hsse, hhttp, hc]

/-- C10 witness: a configuration with the unrecognized type "websocket" and a
command builds a stdio transport. -/
theorem createTransport_defaults_to_stdio_witness :
    createTransport c10Config = Except.ok (Transport.stdio "npx" none none) := by
  rw [createTransport_defaults_to_stdio c10Config (by decide) (by decide)]
  decide

end Automaker

